import Mathlib

/-!
Verification of the rxresume-mcp adapter against its specification.

The development shallowly embeds the TypeScript sources:
  * `src/types.ts`        — the data model (normalized and v5 record shapes);
  * `src/api-client.ts`   — the HTTP client (`RxResumeApiClient`): header
    construction, the 401 refresh-and-retry logic, content negotiation,
    the v5 shape translation, and the read-modify-write section mutations;
  * `src/index.ts`        — the MCP tool registry: one handler per tool,
    each wrapping client calls in a try/catch that turns failures into
    error-flagged textual responses.

Platform builtins (`fetch`, `JSON.parse`) are modelled as oracles: the
network is a scripted list of fetch outcomes consumed in order, and parse
outcomes are passed in as `Except` values.  Everything else is translated
directly from the source.
-/

namespace RxResume

/-! ## Data model, from `src/types.ts` -/

/-- Model of `url: { label, href }` pairs. -/
structure UrlPair where
  label : String
  href : String
deriving DecidableEq, Repr

/-- Model of `basics.customFields` entries. -/
structure CustomField where
  id : String
  icon : String
  name : String
  value : String
deriving DecidableEq, Repr

/-- Model of `picture.effects`. -/
structure PictureEffects where
  hidden : Bool
  border : Bool
  grayscale : Bool
deriving DecidableEq, Repr

/-- Model of `basics.picture`.  JavaScript numbers are modelled as `Int`;
no claim performs arithmetic on them. -/
structure Picture where
  url : String
  size : Int
  aspectRatio : Int
  borderRadius : Int
  effects : PictureEffects
deriving DecidableEq, Repr

/-- Model of `ResumeBasics` from `types.ts`. -/
structure ResumeBasics where
  name : String
  headline : String
  email : String
  phone : String
  location : String
  url : UrlPair
  customFields : List CustomField
  picture : Picture
deriving DecidableEq, Repr

/-- Section items.  The mutation code in `api-client.ts` is generic in the
item type and only ever inspects the `id` field (`T extends { id: string }`);
the remaining fields are carried opaquely as a key-value list. -/
structure Item where
  id : String
  fields : List (String × String)
deriving DecidableEq, Repr

/-- Model of `ResumeSection<T>` from `types.ts`. -/
structure SectionVal where
  name : String
  columns : Int
  separateLinks : Bool
  visible : Bool
  id : String
  items : List Item
deriving DecidableEq, Repr

/-- The closed enum `SectionName` from `types.ts`. -/
inductive SectionName where
  | summary
  | experience
  | education
  | skills
  | projects
  | certifications
  | languages
  | awards
  | publications
  | volunteer
  | interests
  | references
  | profiles
deriving DecidableEq, Repr

/-- Rendering of a `SectionName` back to its string, as the tool layer
interpolates it into messages. -/
def SectionName.str : SectionName → String
  | .summary => "summary"
  | .experience => "experience"
  | .education => "education"
  | .skills => "skills"
  | .projects => "projects"
  | .certifications => "certifications"
  | .languages => "languages"
  | .awards => "awards"
  | .publications => "publications"
  | .volunteer => "volunteer"
  | .interests => "interests"
  | .references => "references"
  | .profiles => "profiles"

/-- Model of `ResumeSections` from `types.ts`: thirteen named sections plus
the `custom` record (modelled as a key-value list). -/
structure Sections where
  summary : SectionVal
  experience : SectionVal
  education : SectionVal
  skills : SectionVal
  projects : SectionVal
  certifications : SectionVal
  languages : SectionVal
  awards : SectionVal
  publications : SectionVal
  volunteer : SectionVal
  interests : SectionVal
  references : SectionVal
  profiles : SectionVal
  custom : List (String × SectionVal)
deriving DecidableEq, Repr

/-- Dynamic read `sections[sectionName]` over the closed enum. -/
def Sections.get (s : Sections) : SectionName → SectionVal
  | .summary => s.summary
  | .experience => s.experience
  | .education => s.education
  | .skills => s.skills
  | .projects => s.projects
  | .certifications => s.certifications
  | .languages => s.languages
  | .awards => s.awards
  | .publications => s.publications
  | .volunteer => s.volunteer
  | .interests => s.interests
  | .references => s.references
  | .profiles => s.profiles

/-- Dynamic update `{ ...sections, [sectionName]: v }` over the closed enum:
the named key is overwritten, every other key (including `custom`) is copied. -/
def Sections.set (s : Sections) (n : SectionName) (v : SectionVal) : Sections :=
  match n with
  | .summary => { s with summary := v }
  | .experience => { s with experience := v }
  | .education => { s with education := v }
  | .skills => { s with skills := v }
  | .projects => { s with projects := v }
  | .certifications => { s with certifications := v }
  | .languages => { s with languages := v }
  | .awards => { s with awards := v }
  | .publications => { s with publications := v }
  | .volunteer => { s with volunteer := v }
  | .interests => { s with interests := v }
  | .references => { s with references := v }
  | .profiles => { s with profiles := v }

/-- Model of `metadata.css`. -/
structure CssSettings where
  value : String
  visible : Bool
deriving DecidableEq, Repr

/-- Model of `metadata.page.options`. -/
structure PageOptions where
  breakLine : Bool
  pageNumbers : Bool
deriving DecidableEq, Repr

/-- Model of `metadata.page`. -/
structure PageSettings where
  margin : Int
  format : String
  options : PageOptions
deriving DecidableEq, Repr

/-- Model of `metadata.theme`. -/
structure ThemeSettings where
  background : String
  text : String
  primary : String
deriving DecidableEq, Repr

/-- Model of `metadata.typography.font`. -/
structure FontSettings where
  family : String
  subset : String
  variants : List String
  size : Int
deriving DecidableEq, Repr

/-- Model of `metadata.typography`. -/
structure Typography where
  font : FontSettings
  lineHeight : Int
  hideIcons : Bool
  underlineLinks : Bool
deriving DecidableEq, Repr

/-- Model of `ResumeMetadata` from `types.ts`. -/
structure Metadata where
  template : String
  layout : List (List (List String))
  css : CssSettings
  page : PageSettings
  theme : ThemeSettings
  typography : Typography
  notes : String
deriving DecidableEq, Repr

/-- Model of `ResumeData` from `types.ts`. -/
structure ResumeData where
  basics : ResumeBasics
  sections : Sections
  metadata : Metadata
deriving DecidableEq, Repr

/-- Normalized `Resume` shape from `types.ts`: `visibility` is the string
union `"private" | "public"`, modelled as a `String`. -/
structure Resume where
  id : String
  title : String
  slug : String
  data : ResumeData
  visibility : String
  locked : Bool
  userId : String
  createdAt : String
  updatedAt : String
deriving DecidableEq, Repr

/-- Normalized `ResumeListItem` shape from `types.ts`. -/
structure ResumeListItem where
  id : String
  title : String
  slug : String
  visibility : String
  locked : Bool
  createdAt : String
  updatedAt : String
deriving DecidableEq, Repr

/-- Upstream `ResumeListItemV5` shape from `types.ts`.  The `Date` fields
are modelled by their string rendering, since the client immediately
applies `.toString()` to them. -/
structure ResumeListItemV5 where
  id : String
  name : String
  slug : String
  tags : List String
  isPublic : Bool
  isLocked : Bool
  createdAt : String
  updatedAt : String
deriving DecidableEq, Repr

/-- Upstream `ResumeV5` shape from `types.ts`. -/
structure ResumeV5 where
  id : String
  name : String
  slug : String
  tags : List String
  data : ResumeData
  isPublic : Bool
  isLocked : Bool
  hasPassword : Bool
deriving DecidableEq, Repr

/-- Normalized `CreateResumeDto` from `types.ts` (`visibility` optional). -/
structure CreateResumeDto where
  title : String
  slug : String
  visibility : Option String
deriving DecidableEq, Repr

/-- Upstream `CreateResumeDtoV5` from `types.ts`.  Note it has no field for
visibility and no field for the lock flag. -/
structure CreateResumeDtoV5 where
  name : String
  slug : String
  tags : List String
  withSampleData : Bool
deriving DecidableEq, Repr

/-- Normalized `UpdateResumeDto` from `types.ts`.  Its `data` field is
typed `Partial<ResumeData>` but every runtime caller passes a complete
merged `ResumeData`, so it is modelled as `Option ResumeData`.  Note the
dto has no field for the lock flag. -/
structure UpdateResumeDto where
  title : Option String
  slug : Option String
  visibility : Option String
  data : Option ResumeData
deriving DecidableEq, Repr

/-- The `Partial<UpdateResumeDtoV5>` value built by `updateResume`: the
`id` and `tags` keys are never assigned by the client, so only the four
assignable keys are modelled, each optional. -/
structure UpdateResumeDtoV5Partial where
  name : Option String
  slug : Option String
  data : Option ResumeData
  isPublic : Option Bool
deriving DecidableEq, Repr

/-! ## Shape translation, from `src/api-client.ts` (v5 client) -/

/-- The per-element conversion in `listResumes` (api-client lines 214-222):
v5 `name`/`isPublic`/`isLocked` become normalized `title`/`visibility`/`locked`. -/
def normalizeListItem (r : ResumeListItemV5) : ResumeListItem :=
  { id := r.id
    title := r.name
    slug := r.slug
    visibility := if r.isPublic then "public" else "private"
    locked := r.isLocked
    createdAt := r.createdAt
    updatedAt := r.updatedAt }

/-- The conversion in `getResume` (api-client lines 231-241): the v5 resume
is renamed into the normalized shape; `userId`, `createdAt` and `updatedAt`
are filled with empty strings because the v5 response carries no such fields. -/
def normalizeResume (v : ResumeV5) : Resume :=
  { id := v.id
    title := v.name
    slug := v.slug
    data := v.data
    visibility := if v.isPublic then "public" else "private"
    locked := v.isLocked
    userId := ""
    createdAt := ""
    updatedAt := "" }

/-- The v5 dto built by `createResume` (api-client lines 246-251): only the
title is renamed to `name`; the dto's `visibility` is not consulted and the
upstream dto carries neither a visibility nor a lock field. -/
def toCreateDtoV5 (dto : CreateResumeDto) : CreateResumeDtoV5 :=
  { name := dto.title
    slug := dto.slug
    tags := []
    withSampleData := false }

/-- The partial v5 dto built by `updateResume` (api-client lines 262-266):
each present normalized field is assigned, with `visibility` converted to
the boolean `isPublic` by comparison with `"public"`. -/
def toUpdateDtoV5 (dto : UpdateResumeDto) : UpdateResumeDtoV5Partial :=
  { name := dto.title
    slug := dto.slug
    data := dto.data
    isPublic := dto.visibility.map (fun v => v = "public") }

/-! ## Read-modify-write merge logic, from `src/api-client.ts` -/

/-- A runtime-faithful model of the partial basics objects spread by
`updateBasics` (`{ ...resume.data.basics, ...basics }`): each key may be
absent, in which case the fetched value is kept. -/
structure BasicsPatch where
  name : Option String
  headline : Option String
  email : Option String
  phone : Option String
  location : Option String
  url : Option UrlPair
  customFields : Option (List CustomField)
  picture : Option Picture
deriving DecidableEq, Repr

/-- JavaScript object spread `{ ...old, ...patch }` for basics records:
present patch keys overwrite, absent keys keep the old value. -/
def mergeBasics (old : ResumeBasics) (p : BasicsPatch) : ResumeBasics :=
  { name := p.name.getD old.name
    headline := p.headline.getD old.headline
    email := p.email.getD old.email
    phone := p.phone.getD old.phone
    location := p.location.getD old.location
    url := p.url.getD old.url
    customFields := p.customFields.getD old.customFields
    picture := p.picture.getD old.picture }

/-- The `Partial<ResumeData>` argument of `updateResumeData`.  When the
`sections` key is present, the value is a complete sections object (every
caller builds it by spreading the freshly fetched sections), so the nested
spread `{ ...resume.data.sections, ...data.sections }` overwrites every key. -/
structure ResumeDataPatch where
  basics : Option BasicsPatch
  sections : Option Sections
  metadata : Option Metadata
deriving DecidableEq, Repr

/-- The merge performed by `updateResumeData` (api-client lines 296-301):
`mergedData = { ...resume.data, ...data, basics: data.basics ? merge : old,
sections: data.sections ? merge : old }`.  A present `sections` patch is a
complete object, so its spread replaces the whole sections record. -/
def mergeResumeData (old : ResumeData) (patch : ResumeDataPatch) : ResumeData :=
  { basics :=
      match patch.basics with
      | some b => mergeBasics old.basics b
      | none => old.basics
    sections :=
      match patch.sections with
      | some s => s
      | none => old.sections
    metadata := patch.metadata.getD old.metadata }

/-- The resume data pushed upstream by `updateSection` (api-client lines
305-316).  `fetched1` is the resume fetched by `updateSection` itself
(used to build `updatedSections`), `fetched2` the one fetched again inside
`updateResumeData` (the merge base).  Execution is strictly sequential, so
absent a concurrent writer both fetches return the same data. -/
def updateSectionPushedData (fetched1 fetched2 : ResumeData) (n : SectionName)
    (v : SectionVal) : ResumeData :=
  mergeResumeData fetched2
    { basics := none, sections := some (fetched1.sections.set n v), metadata := none }

/-- The item filter in `removeSectionItem` (api-client line 359):
`section.items.filter((item) => item.id !== itemId)`. -/
def removeItemsById (items : List Item) (itemId : String) : List Item :=
  items.filter (fun item => item.id != itemId)

/-- The updated section value built by `removeSectionItem` (api-client
lines 356-361): the section object is kept, its `items` array filtered. -/
def removeSectionItemUpdated (sec : SectionVal) (itemId : String) : SectionVal :=
  { sec with items := removeItemsById sec.items itemId }

/-! ## String helpers modelling the JavaScript builtins used by the code -/

/-- Prefix test on character lists (used to model `String.prototype.includes`
and the regex search in `refreshAccessToken`). -/
def headMatches : List Char → List Char → Bool
  | [], _ => true
  | _ :: _, [] => false
  | p :: ps, c :: cs => p = c && headMatches ps cs

/-- Substring search: does `pat` occur contiguously in `s`?  Models
`String.prototype.includes`. -/
def findSub (pat : List Char) : List Char → Bool
  | [] => headMatches pat []
  | c :: cs => headMatches pat (c :: cs) || findSub pat cs

/-- Model of `contentType.includes("application/json")` and similar calls. -/
def strIncludes (s pat : String) : Bool := findSub pat.data s.data

/-- Model of the regex search `/Authentication=([^;]+)/` in
`refreshAccessToken`: find the first position where `Authentication=` is
followed by at least one character other than a semicolon, and return the
maximal (greedy) run of such characters. -/
def scanAuth : List Char → Option String
  | [] => none
  | c :: cs =>
    if headMatches "Authentication=".data (c :: cs) then
      let tok := ((c :: cs).drop 15).takeWhile (fun ch => ch ≠ ';')
      if tok.isEmpty then scanAuth cs else some (String.mk tok)
    else scanAuth cs

/-- JavaScript template-literal rendering of a possibly-null string. -/
def optToString : Option String → String
  | some s => s
  | none => "null"

/-- JavaScript truthiness of an optional string: `undefined` and the empty
string are falsy. -/
def jsTruthy : Option String → Bool
  | some s => s != ""
  | none => false

/-- Model of `String.prototype.replace(/\s+/g, "-")`: every maximal run of
whitespace characters becomes a single hyphen.  The `inRun` flag records
whether the previous character was part of a whitespace run. -/
def collapseWsAux : Bool → List Char → List Char
  | _, [] => []
  | inRun, c :: rest =>
    if c.isWhitespace then
      if inRun then collapseWsAux true rest
      else '-' :: collapseWsAux true rest
    else c :: collapseWsAux false rest

/-- The slug derivation in the `create_resume` tool (index.ts line 331):
`title.toLowerCase().replace(/\s+/g, "-")`.  Lower-casing is applied
character by character, as `toLowerCase` does. -/
def deriveSlug (title : String) : String :=
  String.mk (collapseWsAux false (title.data.map Char.toLower))

/-! ## The HTTP client request layer, from `src/api-client.ts` lines 21-118

The network is an oracle: a scripted list of fetch outcomes consumed in
order, one per `fetch` call the code performs.  Each performed `fetch` is
also recorded in a trace of issued requests. -/

/-- The credential fields of `RxResumeApiClient` (api-client lines 21-31). -/
structure ClientState where
  baseUrl : String
  apiKey : Option String
  accessToken : Option String
  refreshToken : Option String
  cookies : List String
deriving DecidableEq, Repr

/-- An HTTP request as handed to `fetch`. -/
structure HttpRequest where
  url : String
  method : String
  headers : List (String × String)
  body : Option String
deriving DecidableEq, Repr

/-- An HTTP response as seen through the `fetch` response object: status,
status text, the `content-type` and `set-cookie` headers, and the body text. -/
structure HttpResponse where
  status : Nat
  statusText : String
  contentType : Option String
  setCookie : Option String
  body : String
deriving DecidableEq, Repr

/-- The `Response.ok` accessor: status in the range 200-299. -/
def HttpResponse.ok (r : HttpResponse) : Bool :=
  200 ≤ r.status && r.status < 300

/-- Outcome of one `fetch` call: a response, or a thrown network error. -/
inductive FetchOutcome where
  | success (resp : HttpResponse)
  | failure (msg : String)
deriving DecidableEq, Repr

/-- The request options record (`RequestInit`): the client only ever sets
`method`, `headers` and `body`. -/
structure RequestOptions where
  method : String := "GET"
  headers : List (String × String) := []
  body : Option String := none
deriving DecidableEq, Repr

/-- Assignment `headers[k] = v` on a JavaScript record: an existing key is
overwritten in place, a new key appended. -/
def setHeader (hs : List (String × String)) (k v : String) : List (String × String) :=
  if hs.any (fun p => p.1 = k) then
    hs.map (fun p => if p.1 = k then (k, v) else p)
  else hs ++ [(k, v)]

/-- Object spread `{ ...base, ...extra }` on header records. -/
def mergeHeaders (base extra : List (String × String)) : List (String × String) :=
  extra.foldl (fun hs p => setHeader hs p.1 p.2) base

/-- Header lookup (for stating theorems about issued requests): the value
at the first occurrence of the key, if any. -/
def lookupHeader : List (String × String) → String → Option String
  | [], _ => none
  | p :: t, k => if p.1 = k then some p.2 else lookupHeader t k

/-- The header construction of `request` (api-client lines 65-81): default
JSON content type merged with caller headers, then the API key header (or,
failing that, the bearer header), then the stored cookies. -/
def buildHeaders (st : ClientState) (optHeaders : List (String × String)) :
    List (String × String) :=
  let headers0 := mergeHeaders [("Content-Type", "application/json")] optHeaders
  let headers1 :=
    match st.apiKey with
    | some k => setHeader headers0 "x-api-key" k
    | none =>
      match st.accessToken with
      | some t => setHeader headers0 "Authorization" ("Bearer " ++ t)
      | none => headers0
  if st.cookies.length > 0 then
    setHeader headers1 "Cookie" (String.intercalate "; " st.cookies)
  else headers1

/-- Result of `refreshAccessToken`: the returned boolean, the client state
after the call, the issued requests, and the unconsumed network script. -/
structure RefreshResult where
  refreshed : Bool
  state : ClientState
  trace : List HttpRequest
  net : List FetchOutcome
deriving Repr

/-- The refresh request issued by `refreshAccessToken` (api-client lines
168-174): a POST to `/api/auth/refresh` carrying the refresh token as the
`Refresh` cookie. -/
def refreshRequest (baseUrl rt : String) : HttpRequest :=
  { url := baseUrl ++ "/api/auth/refresh"
    method := "POST"
    headers := [("Content-Type", "application/json"), ("Cookie", "Refresh=" ++ rt)]
    body := none }

/-- Model of `refreshAccessToken` (api-client lines 164-192): one fetch; on
a thrown fetch or a non-ok response the method returns false; on an ok
response the `set-cookie` header is searched for `Authentication=([^;]+)`
and, when found, the captured token becomes the new access token. -/
def refreshAccessToken (st : ClientState) (net : List FetchOutcome) : RefreshResult :=
  match st.refreshToken with
  | none => ⟨false, st, [], net⟩
  | some rt =>
    let req := refreshRequest st.baseUrl rt
    match net with
    | [] => ⟨false, st, [req], []⟩
    | .failure _ :: rest => ⟨false, st, [req], rest⟩
    | .success resp :: rest =>
      if resp.ok then
        match resp.setCookie with
        | some sc =>
          match scanAuth sc.data with
          | some tok => ⟨true, { st with accessToken := some tok }, [req], rest⟩
          | none => ⟨false, st, [req], rest⟩
        | none => ⟨false, st, [req], rest⟩
      else ⟨false, st, [req], rest⟩

/-- The value a successful `request` resolves to: a body parsed as JSON
(`response.json()`), or the raw body text (`response.text()`). -/
inductive Payload where
  | json (body : String)
  | text (body : String)
deriving DecidableEq, Repr

/-- An error thrown out of `request`: a network failure, or the
`API request failed: status statusText - body` error built from a non-ok
response. -/
inductive ReqError where
  | network (msg : String)
  | api (status : Nat) (statusText : String) (body : String)
deriving DecidableEq, Repr

/-- The `error.message` string of a thrown request error. -/
def ReqError.message : ReqError → String
  | .network m => m
  | .api s t b => "API request failed: " ++ toString s ++ " " ++ t ++ " - " ++ b

/-- Result of one `request` call: the resolved payload or thrown error, the
client state afterwards, and the requests issued (in order). -/
structure RequestResult where
  result : Except ReqError Payload
  state : ClientState
  trace : List HttpRequest
deriving Repr

/-- The tail of `request` on the originally fetched response (api-client
lines 106-117): non-ok responses throw the status/statusText/body error;
ok responses are parsed as JSON when the content type includes
`application/json` and returned as raw text otherwise. -/
def finishOriginal (resp : HttpResponse) (st : ClientState)
    (tr : List HttpRequest) : RequestResult :=
  if resp.ok then
    match resp.contentType with
    | some ct =>
      if strIncludes ct "application/json" then ⟨.ok (.json resp.body), st, tr⟩
      else ⟨.ok (.text resp.body), st, tr⟩
    | none => ⟨.ok (.text resp.body), st, tr⟩
  else ⟨.error (.api resp.status resp.statusText resp.body), st, tr⟩

/-- Model of the private `request` method (api-client lines 60-118).  The
URL is base + endpoint; headers are built by `buildHeaders`; one fetch is
issued.  If it reports status 401 while a refresh token is held and no API
key is set, `refreshAccessToken` runs once; on success the original request
is retried exactly once with the refreshed bearer token, and the retry's
body is returned via `.json()` unconditionally (non-ok retries throw).  In
every other case the original response is finished normally. -/
def request (st : ClientState) (endpoint : String) (opts : RequestOptions)
    (net : List FetchOutcome) : RequestResult :=
  let url := st.baseUrl ++ endpoint
  let headers := buildHeaders st opts.headers
  let req1 : HttpRequest := ⟨url, opts.method, headers, opts.body⟩
  match net with
  | [] => ⟨.error (.network "fetch failed"), st, [req1]⟩
  | .failure msg :: _ => ⟨.error (.network msg), st, [req1]⟩
  | .success resp :: net1 =>
    if resp.status = 401 ∧ st.refreshToken.isSome ∧ st.apiKey = none then
      let rr := refreshAccessToken st net1
      if rr.refreshed then
        let headers3 := setHeader headers "Authorization"
          ("Bearer " ++ optToString rr.state.accessToken)
        let req2 : HttpRequest := ⟨url, opts.method, headers3, opts.body⟩
        match rr.net with
        | [] => ⟨.error (.network "fetch failed"), rr.state, [req1] ++ rr.trace ++ [req2]⟩
        | .failure msg :: _ => ⟨.error (.network msg), rr.state, [req1] ++ rr.trace ++ [req2]⟩
        | .success retry :: _ =>
          if retry.ok then
            ⟨.ok (.json retry.body), rr.state, [req1] ++ rr.trace ++ [req2]⟩
          else
            ⟨.error (.api retry.status retry.statusText retry.body), rr.state,
              [req1] ++ rr.trace ++ [req2]⟩
      else finishOriginal resp rr.state ([req1] ++ rr.trace)
    else finishOriginal resp st [req1]

/-- The client call made by `deleteResume` (api-client lines 276-280): one
DELETE request to the resume endpoint. -/
def deleteResumeClient (st : ClientState) (id : String) (net : List FetchOutcome) :
    RequestResult :=
  request st ("/api/openapi/resume/" ++ id) { method := "DELETE" } net

/-! ## Tool layer, from `src/index.ts`

Each MCP tool handler is modelled as a pure function from its arguments
and the outcomes of the client calls it performs (oracles of type
`Except String α`, carrying the thrown `error.message` on failure) to the
response envelope it returns.  The `try`/`catch` of each handler becomes a
`match` on the oracle outcome. -/

/-- Model of the `User` record from `types.ts`. -/
structure User where
  id : String
  name : String
  picture : Option String
  username : String
  email : String
  locale : String
  emailVerified : Bool
  twoFactorEnabled : Bool
  createdAt : String
  updatedAt : String
deriving DecidableEq, Repr

/-- Model of `LoginResponse` from `types.ts`. -/
structure LoginResponse where
  status : String
  user : User
deriving DecidableEq, Repr

/-- The response envelope every tool returns: a text content block and the
`isError` flag (absent in TypeScript meaning false). -/
structure ToolResult where
  text : String
  isError : Bool
deriving DecidableEq, Repr

/-! ### Serialization (model of `JSON.stringify` on the record shapes) -/

/-- JSON string literal (escaping elided; no claim depends on it). -/
def jsonStr (s : String) : String := "\"" ++ s ++ "\""

/-- JSON boolean literal. -/
def jsonBool (b : Bool) : String := if b then "true" else "false"

/-- JSON number literal. -/
def jsonInt (n : Int) : String := toString n

/-- One `"key": value` member. -/
def jsonField (k v : String) : String := jsonStr k ++ ": " ++ v

/-- A JSON object from rendered members. -/
def jsonObj (fields : List String) : String :=
  "\x7b" ++ String.intercalate ", " fields ++ "\x7d"

/-- A JSON array from rendered elements. -/
def jsonArr (elems : List String) : String :=
  "[" ++ String.intercalate ", " elems ++ "]"

/-- A nullable JSON string. -/
def jsonOptStr : Option String → String
  | some s => jsonStr s
  | none => "null"

/-- Rendering of a `User`. -/
def stringifyUser (u : User) : String :=
  jsonObj [jsonField "id" (jsonStr u.id), jsonField "name" (jsonStr u.name),
    jsonField "picture" (jsonOptStr u.picture), jsonField "username" (jsonStr u.username),
    jsonField "email" (jsonStr u.email), jsonField "locale" (jsonStr u.locale),
    jsonField "emailVerified" (jsonBool u.emailVerified),
    jsonField "twoFactorEnabled" (jsonBool u.twoFactorEnabled),
    jsonField "createdAt" (jsonStr u.createdAt), jsonField "updatedAt" (jsonStr u.updatedAt)]

/-- Rendering of a `UrlPair`. -/
def stringifyUrlPair (u : UrlPair) : String :=
  jsonObj [jsonField "label" (jsonStr u.label), jsonField "href" (jsonStr u.href)]

/-- Rendering of a custom field. -/
def stringifyCustomField (c : CustomField) : String :=
  jsonObj [jsonField "id" (jsonStr c.id), jsonField "icon" (jsonStr c.icon),
    jsonField "name" (jsonStr c.name), jsonField "value" (jsonStr c.value)]

/-- Rendering of the picture block. -/
def stringifyPicture (p : Picture) : String :=
  jsonObj [jsonField "url" (jsonStr p.url), jsonField "size" (jsonInt p.size),
    jsonField "aspectRatio" (jsonInt p.aspectRatio),
    jsonField "borderRadius" (jsonInt p.borderRadius),
    jsonField "effects" (jsonObj [jsonField "hidden" (jsonBool p.effects.hidden),
      jsonField "border" (jsonBool p.effects.border),
      jsonField "grayscale" (jsonBool p.effects.grayscale)])]

/-- Rendering of the basics block. -/
def stringifyBasics (b : ResumeBasics) : String :=
  jsonObj [jsonField "name" (jsonStr b.name), jsonField "headline" (jsonStr b.headline),
    jsonField "email" (jsonStr b.email), jsonField "phone" (jsonStr b.phone),
    jsonField "location" (jsonStr b.location), jsonField "url" (stringifyUrlPair b.url),
    jsonField "customFields" (jsonArr (b.customFields.map stringifyCustomField)),
    jsonField "picture" (stringifyPicture b.picture)]

/-- Rendering of a section item. -/
def stringifyItem (i : Item) : String :=
  jsonObj (jsonField "id" (jsonStr i.id) ::
    i.fields.map (fun p => jsonField p.1 (jsonStr p.2)))

/-- Rendering of a section value. -/
def stringifySectionVal (s : SectionVal) : String :=
  jsonObj [jsonField "name" (jsonStr s.name), jsonField "columns" (jsonInt s.columns),
    jsonField "separateLinks" (jsonBool s.separateLinks),
    jsonField "visible" (jsonBool s.visible), jsonField "id" (jsonStr s.id),
    jsonField "items" (jsonArr (s.items.map stringifyItem))]

/-- Rendering of the sections record. -/
def stringifySections (s : Sections) : String :=
  jsonObj [jsonField "summary" (stringifySectionVal s.summary),
    jsonField "experience" (stringifySectionVal s.experience),
    jsonField "education" (stringifySectionVal s.education),
    jsonField "skills" (stringifySectionVal s.skills),
    jsonField "projects" (stringifySectionVal s.projects),
    jsonField "certifications" (stringifySectionVal s.certifications),
    jsonField "languages" (stringifySectionVal s.languages),
    jsonField "awards" (stringifySectionVal s.awards),
    jsonField "publications" (stringifySectionVal s.publications),
    jsonField "volunteer" (stringifySectionVal s.volunteer),
    jsonField "interests" (stringifySectionVal s.interests),
    jsonField "references" (stringifySectionVal s.references),
    jsonField "profiles" (stringifySectionVal s.profiles),
    jsonField "custom" (jsonObj (s.custom.map (fun p => jsonField p.1 (stringifySectionVal p.2))))]

/-- Rendering of the metadata block. -/
def stringifyMetadata (m : Metadata) : String :=
  jsonObj [jsonField "template" (jsonStr m.template),
    jsonField "layout" (jsonArr (m.layout.map (fun pg =>
      jsonArr (pg.map (fun col => jsonArr (col.map jsonStr)))))),
    jsonField "css" (jsonObj [jsonField "value" (jsonStr m.css.value),
      jsonField "visible" (jsonBool m.css.visible)]),
    jsonField "page" (jsonObj [jsonField "margin" (jsonInt m.page.margin),
      jsonField "format" (jsonStr m.page.format),
      jsonField "options" (jsonObj [jsonField "breakLine" (jsonBool m.page.options.breakLine),
        jsonField "pageNumbers" (jsonBool m.page.options.pageNumbers)])]),
    jsonField "theme" (jsonObj [jsonField "background" (jsonStr m.theme.background),
      jsonField "text" (jsonStr m.theme.text),
      jsonField "primary" (jsonStr m.theme.primary)]),
    jsonField "typography" (jsonObj [jsonField "font" (jsonObj
        [jsonField "family" (jsonStr m.typography.font.family),
         jsonField "subset" (jsonStr m.typography.font.subset),
         jsonField "variants" (jsonArr (m.typography.font.variants.map jsonStr)),
         jsonField "size" (jsonInt m.typography.font.size)]),
      jsonField "lineHeight" (jsonInt m.typography.lineHeight),
      jsonField "hideIcons" (jsonBool m.typography.hideIcons),
      jsonField "underlineLinks" (jsonBool m.typography.underlineLinks)]),
    jsonField "notes" (jsonStr m.notes)]

/-- Rendering of a resume data payload. -/
def stringifyResumeData (d : ResumeData) : String :=
  jsonObj [jsonField "basics" (stringifyBasics d.basics),
    jsonField "sections" (stringifySections d.sections),
    jsonField "metadata" (stringifyMetadata d.metadata)]

/-- Rendering of a normalized resume. -/
def stringifyResume (r : Resume) : String :=
  jsonObj [jsonField "id" (jsonStr r.id), jsonField "title" (jsonStr r.title),
    jsonField "slug" (jsonStr r.slug), jsonField "data" (stringifyResumeData r.data),
    jsonField "visibility" (jsonStr r.visibility), jsonField "locked" (jsonBool r.locked),
    jsonField "userId" (jsonStr r.userId), jsonField "createdAt" (jsonStr r.createdAt),
    jsonField "updatedAt" (jsonStr r.updatedAt)]

/-- The per-row projection built by `list_resumes` before serializing. -/
def listItemFormatted (r : ResumeListItem) : String :=
  jsonObj [jsonField "id" (jsonStr r.id), jsonField "title" (jsonStr r.title),
    jsonField "slug" (jsonStr r.slug), jsonField "visibility" (jsonStr r.visibility),
    jsonField "locked" (jsonBool r.locked), jsonField "updatedAt" (jsonStr r.updatedAt)]

/-! ### The twenty registered tool handlers (index.ts lines 43-901) -/

/-- Handler of `authenticate` (index.ts lines 43-100): a truthy API key wins
immediately; otherwise truthy identifier and password trigger the legacy
login (surfacing its failure message); otherwise an error-flagged usage
message is returned. -/
def authenticateTool (apiKey identifier password : Option String)
    (login : Except String LoginResponse) : ToolResult :=
  if jsTruthy apiKey then
    ⟨"Successfully authenticated with API key", false⟩
  else if jsTruthy identifier && jsTruthy password then
    match login with
    | .ok r => ⟨"Successfully authenticated as " ++ r.user.name ++ " (" ++ r.user.email ++ ")", false⟩
    | .error m => ⟨"Authentication failed: " ++ m, true⟩
  else
    ⟨"Please provide either an api_key or both identifier and password", true⟩

/-- Handler of `set_base_url` (index.ts lines 102-119): replaces the client
and reports the new URL; no failing operation occurs in its body. -/
def setBaseUrlTool (url : String) : ToolResult :=
  ⟨"Base URL changed to: " ++ url, false⟩

/-- Handler of `check_connection` (index.ts lines 121-148); the oracle is
the `healthCheck` outcome, carrying the reported status string. -/
def checkConnectionTool (health : Except String String) : ToolResult :=
  match health with
  | .ok s => ⟨"Connection successful. Server status: " ++ s, false⟩
  | .error m => ⟨"Connection failed: " ++ m, true⟩

/-- Handler of `get_current_user` (index.ts lines 150-177). -/
def getCurrentUserTool (user : Except String User) : ToolResult :=
  match user with
  | .ok u => ⟨stringifyUser u, false⟩
  | .error m => ⟨"Failed to get user: " ++ m, true⟩

/-- Handler of `list_resumes` (index.ts lines 179-224): an empty listing
gets a hint message, otherwise the formatted projection is serialized. -/
def listResumesTool (resumes : Except String (List ResumeListItem)) : ToolResult :=
  match resumes with
  | .ok rs =>
    if rs.length = 0 then
      ⟨"No resumes found. Create one using the create_resume tool.", false⟩
    else
      ⟨jsonArr (rs.map listItemFormatted), false⟩
  | .error m => ⟨"Failed to list resumes: " ++ m, true⟩

/-- Handler of `get_resume` (index.ts lines 226-255). -/
def getResumeTool (resume : Except String Resume) : ToolResult :=
  match resume with
  | .ok r => ⟨stringifyResume r, false⟩
  | .error m => ⟨"Failed to get resume: " ++ m, true⟩

/-- The section argument of `get_resume_section`: `basics` or one of the
thirteen named sections. -/
inductive SectionChoice where
  | basics
  | sec (n : SectionName)
deriving DecidableEq, Repr

/-- Handler of `get_resume_section` (index.ts lines 257-310). -/
def getResumeSectionTool (choice : SectionChoice)
    (resume : Except String Resume) : ToolResult :=
  match resume with
  | .ok r =>
    match choice with
    | .basics => ⟨stringifyBasics r.data.basics, false⟩
    | .sec n => ⟨stringifySectionVal (r.data.sections.get n), false⟩
  | .error m => ⟨"Failed to get section: " ++ m, true⟩

/-- The dto handed to `createResume` by the `create_resume` handler
(index.ts lines 329-333): `slug: slug || title.toLowerCase().replace(/\s+/g, "-")`
falls back to the derived slug when the argument is absent or empty. -/
def createResumeToolDto (title : String) (slug : Option String)
    (visibility : String) : CreateResumeDto :=
  { title := title
    slug :=
      match slug with
      | some s => if s = "" then deriveSlug title else s
      | none => deriveSlug title
    visibility := some visibility }

/-- Handler of `create_resume` (index.ts lines 312-354); the oracle is the
`createResume` outcome (the normalized resume fetched after creation). -/
def createResumeTool (created : Except String Resume) : ToolResult :=
  match created with
  | .ok r =>
    ⟨"Resume created successfully!\nID: " ++ r.id ++ "\nTitle: " ++ r.title ++
      "\nSlug: " ++ r.slug, false⟩
  | .error m => ⟨"Failed to create resume: " ++ m, true⟩

/-- Handler of `update_resume_basics` (index.ts lines 356-406): when either
URL argument is present the resume is fetched first (to fill the missing
half of the url pair), then `updateBasics` runs; the other arguments only
populate the updates record and cannot fail. -/
def updateResumeBasicsTool (urlLabel urlHref : Option String)
    (fetched updated : Except String Resume) : ToolResult :=
  let body : Except String Resume := do
    if urlLabel.isSome || urlHref.isSome then
      let _ ← fetched
    updated
  match body with
  | .ok _ => ⟨"Basic information updated successfully.", false⟩
  | .error m => ⟨"Failed to update basics: " ++ m, true⟩

/-- Handler of `update_summary` (index.ts lines 408-444): fetch, splice the
content into the summary section, push via `updateSection`. -/
def updateSummaryTool (fetched updated : Except String Resume) : ToolResult :=
  match (do let _ ← fetched; updated : Except String Resume) with
  | .ok _ => ⟨"Summary updated successfully.", false⟩
  | .error m => ⟨"Failed to update summary: " ++ m, true⟩

/-- Handler of `add_experience` (index.ts lines 446-495). -/
def addExperienceTool (company position : String)
    (added : Except String Resume) : ToolResult :=
  match added with
  | .ok _ => ⟨"Experience added: " ++ position ++ " at " ++ company, false⟩
  | .error m => ⟨"Failed to add experience: " ++ m, true⟩

/-- Handler of `add_education` (index.ts lines 497-549). -/
def addEducationTool (institution studyType area : String)
    (added : Except String Resume) : ToolResult :=
  match added with
  | .ok _ => ⟨"Education added: " ++ studyType ++ " in " ++ area ++ " at " ++ institution, false⟩
  | .error m => ⟨"Failed to add education: " ++ m, true⟩

/-- Handler of `add_skill` (index.ts lines 551-594). -/
def addSkillTool (name : String) (added : Except String Resume) : ToolResult :=
  match added with
  | .ok _ => ⟨"Skill added: " ++ name, false⟩
  | .error m => ⟨"Failed to add skill: " ++ m, true⟩

/-- Handler of `add_project` (index.ts lines 596-643). -/
def addProjectTool (name : String) (added : Except String Resume) : ToolResult :=
  match added with
  | .ok _ => ⟨"Project added: " ++ name, false⟩
  | .error m => ⟨"Failed to add project: " ++ m, true⟩

/-- Handler of `update_section_item` (index.ts lines 645-693): the free-form
`updates` argument goes through `JSON.parse` (oracle `parsed`; a parse
failure is thrown inside the `try`), then `updateSectionItem` runs. -/
def updateSectionItemTool (n : SectionName) (itemId : String)
    (parsed : Except String Unit) (updated : Except String Resume) : ToolResult :=
  match (do let _ ← parsed; updated : Except String Resume) with
  | .ok _ => ⟨"Item " ++ itemId ++ " in " ++ n.str ++ " updated successfully.", false⟩
  | .error m => ⟨"Failed to update item: " ++ m, true⟩

/-- Handler of `remove_section_item` (index.ts lines 695-741). -/
def removeSectionItemTool (n : SectionName)
    (removed : Except String Resume) : ToolResult :=
  match removed with
  | .ok _ => ⟨"Item removed from " ++ n.str ++ ".", false⟩
  | .error m => ⟨"Failed to remove item: " ++ m, true⟩

/-- Handler of `toggle_section_visibility` (index.ts lines 743-796). -/
def toggleSectionVisibilityTool (n : SectionName) (visible : Bool)
    (fetched updated : Except String Resume) : ToolResult :=
  match (do let _ ← fetched; updated : Except String Resume) with
  | .ok _ =>
    ⟨"Section " ++ n.str ++ " is now " ++ (if visible then "visible" else "hidden") ++ ".", false⟩
  | .error m => ⟨"Failed to toggle visibility: " ++ m, true⟩

/-- Handler of `delete_resume` (index.ts lines 798-838), modelled down to
the HTTP layer: without `confirm` it returns the cancellation message
before any client call; with `confirm` it runs `deleteResume`, which issues
one `request`.  Returns the response, the client state afterwards, and the
trace of issued HTTP requests. -/
def deleteResumeTool (st : ClientState) (id : String) (confirm : Bool)
    (net : List FetchOutcome) : ToolResult × ClientState × List HttpRequest :=
  if !confirm then
    (⟨"Deletion cancelled. Set confirm to true to delete.", false⟩, st, [])
  else
    let r := deleteResumeClient st id net
    match r.result with
    | .ok _ => (⟨"Resume deleted successfully.", false⟩, r.state, r.trace)
    | .error e => (⟨"Failed to delete resume: " ++ e.message, true⟩, r.state, r.trace)

/-- Handler of `export_resume_json` (index.ts lines 840-869). -/
def exportResumeJsonTool (resume : Except String Resume) : ToolResult :=
  match resume with
  | .ok r => ⟨stringifyResume r, false⟩
  | .error m => ⟨"Failed to export: " ++ m, true⟩

/-- Handler of `update_resume_visibility` (index.ts lines 871-901). -/
def updateResumeVisibilityTool (visibility : String)
    (updated : Except String Resume) : ToolResult :=
  match updated with
  | .ok _ => ⟨"Resume visibility set to " ++ visibility ++ ".", false⟩
  | .error m => ⟨"Failed to update visibility: " ++ m, true⟩

/-! ## Sample values used by concrete witnesses and counterexamples -/

/-- A sample section value. -/
def sampleSectionVal : SectionVal :=
  { name := "Skills", columns := 1, separateLinks := false, visible := true,
    id := "sec1", items := [] }

/-- A second sample section value, distinct from the first. -/
def sampleSectionVal2 : SectionVal :=
  { name := "Experience", columns := 2, separateLinks := true, visible := false,
    id := "sec2", items := [{ id := "it1", fields := [("company", "Acme")] }] }

/-- A sample basics block. -/
def sampleBasics : ResumeBasics :=
  { name := "Ada", headline := "Engineer", email := "ada@example.test",
    phone := "555", location := "London", url := { label := "", href := "" },
    customFields := [],
    picture := { url := "", size := 64, aspectRatio := 1, borderRadius := 0,
                 effects := { hidden := false, border := false, grayscale := false } } }

/-- A sample sections record. -/
def sampleSections : Sections :=
  { summary := sampleSectionVal, experience := sampleSectionVal2,
    education := sampleSectionVal, skills := sampleSectionVal2,
    projects := sampleSectionVal, certifications := sampleSectionVal,
    languages := sampleSectionVal, awards := sampleSectionVal,
    publications := sampleSectionVal, volunteer := sampleSectionVal,
    interests := sampleSectionVal, references := sampleSectionVal,
    profiles := sampleSectionVal, custom := [] }

/-- A sample metadata block. -/
def sampleMetadata : Metadata :=
  { template := "onyx", layout := [], css := { value := "", visible := false },
    page := { margin := 14, format := "a4",
              options := { breakLine := true, pageNumbers := false } },
    theme := { background := "#fff", text := "#000", primary := "#09f" },
    typography := { font := { family := "Serif", subset := "latin", variants := [], size := 14 },
                    lineHeight := 2, hideIcons := false, underlineLinks := false },
    notes := "" }

/-- A sample resume data payload. -/
def sampleResumeData : ResumeData :=
  { basics := sampleBasics, sections := sampleSections, metadata := sampleMetadata }

/-- A sample normalized resume. -/
def sampleResume : Resume :=
  { id := "r1", title := "My Resume", slug := "my-resume", data := sampleResumeData,
    visibility := "private", locked := false, userId := "", createdAt := "", updatedAt := "" }

/-- A client state holding only legacy bearer-session tokens (no API key). -/
def tokenState : ClientState :=
  { baseUrl := "http://rx.local", apiKey := none, accessToken := some "oldtok",
    refreshToken := some "refresh1", cookies := [] }

/-- A client state holding an API key together with leftover legacy tokens. -/
def keyState : ClientState :=
  { baseUrl := "http://rx.local", apiKey := some "key123", accessToken := some "oldtok",
    refreshToken := some "refresh1", cookies := [] }

/-- A 401 response. -/
def resp401 : HttpResponse :=
  { status := 401, statusText := "Unauthorized", contentType := none,
    setCookie := none, body := "expired" }

/-- A successful refresh response carrying a new `Authentication` cookie. -/
def refreshOk : HttpResponse :=
  { status := 200, statusText := "OK", contentType := none,
    setCookie := some "Authentication=newtok; Path=/; HttpOnly", body := "" }

/-- A failed refresh response. -/
def refreshBad : HttpResponse :=
  { status := 500, statusText := "Server Error", contentType := none,
    setCookie := none, body := "boom" }

/-- A 200 response with JSON content type. -/
def okJson : HttpResponse :=
  { status := 200, statusText := "OK", contentType := some "application/json",
    setCookie := none, body := "[1]" }

/-- A 200 response with a plain-text content type. -/
def okTextPlain : HttpResponse :=
  { status := 200, statusText := "OK", contentType := some "text/plain",
    setCookie := none, body := "hello" }

/-- A sample user. -/
def sampleUser : User :=
  { id := "u1", name := "Ada", picture := none, username := "ada", email := "ada@example.test",
    locale := "en-US", emailVerified := true, twoFactorEnabled := false,
    createdAt := "2024-01-01", updatedAt := "2024-01-02" }

/-- A sample login response. -/
def sampleLogin : LoginResponse :=
  { status := "ok", user := sampleUser }

/-! ## Helper lemmas -/

/-- String concatenation concatenates the underlying character lists. -/
theorem str_data_append (a b : String) : (a ++ b).data = a.data ++ b.data := rfl

/-- A middle factor of a character-list concatenation is an infix of it. -/
theorem infix_of_parts (a b c : List Char) : b <:+: a ++ b ++ c :=
  ⟨a, c, rfl⟩

/-- Reading a freshly written section yields the written value. -/
theorem sections_set_get_self (s : Sections) (n : SectionName) (v : SectionVal) :
    (s.set n v).get n = v := by
  cases n <;> rfl

/-- Reading any other section is unaffected by a write. -/
theorem sections_set_get_ne (s : Sections) (n k : SectionName) (v : SectionVal)
    (h : k ≠ n) : (s.set n v).get k = s.get k := by
  cases n <;> cases k <;> first | rfl | exact absurd rfl h

/-- Writing a named section leaves the custom sections untouched. -/
theorem sections_set_custom (s : Sections) (n : SectionName) (v : SectionVal) :
    (s.set n v).custom = s.custom := by
  cases n <;> rfl

/-- Removed and kept items partition the section: the filtered length plus
the number of matching items is the original length. -/
theorem removeItemsById_length_add_countP (items : List Item) (itemId : String) :
    (removeItemsById items itemId).length +
      items.countP (fun x => x.id == itemId) = items.length := by
  induction items with
  | nil => rfl
  | cons a t ih =>
    by_cases h : a.id = itemId <;>
      simp [removeItemsById, List.filter_cons, List.countP_cons, h] at ih ⊢ <;>
      omega

/-! ## Claim C1 -/

/-- Claim C1 counterexample.  The claim states that the create operation
(like listing, fetch and update) performs the field rename and the
boolean⇄string visibility conversion "for all three fields, symmetrically
in both directions".  In fact `createResume` never consults the dto's
`visibility`: two create dtos differing only in visibility are sent
upstream as the same v5 payload, so no visibility conversion happens in
the create direction (the v5 create dto has no visibility or lock field
at all). -/
theorem claim_C1_counterexample :
    toCreateDtoV5 { title := "T", slug := "t", visibility := some "public" } =
      toCreateDtoV5 { title := "T", slug := "t", visibility := some "private" } := rfl

/-- Claim C1, amended: the listing and single-resume fetch translate all
three fields from the v5 shape to the normalized shape (`name` to `title`,
boolean `isPublic` to the `"public"`/`"private"` string, `isLocked` to
`locked`); the update operation translates, for the fields its dto can
carry, `title` to `name` and the visibility string back to the boolean
`isPublic` (the dto has no lock field); the create operation translates
only the `title` rename and drops visibility entirely; and the
boolean-to-string visibility conversion is the exact inverse of the
string-to-boolean one. -/
theorem claim_C1_amended :
    (∀ r : ResumeListItemV5,
      (normalizeListItem r).title = r.name ∧
      (normalizeListItem r).visibility = (if r.isPublic then "public" else "private") ∧
      (normalizeListItem r).locked = r.isLocked) ∧
    (∀ v : ResumeV5,
      (normalizeResume v).title = v.name ∧
      (normalizeResume v).visibility = (if v.isPublic then "public" else "private") ∧
      (normalizeResume v).locked = v.isLocked ∧
      (normalizeResume v).data = v.data) ∧
    (∀ dto : UpdateResumeDto,
      (toUpdateDtoV5 dto).name = dto.title ∧
      (toUpdateDtoV5 dto).slug = dto.slug ∧
      (toUpdateDtoV5 dto).data = dto.data ∧
      (toUpdateDtoV5 dto).isPublic = dto.visibility.map (fun s => decide (s = "public"))) ∧
    (∀ dto : CreateResumeDto,
      (toCreateDtoV5 dto).name = dto.title ∧
      (toCreateDtoV5 dto).slug = dto.slug ∧
      toCreateDtoV5 dto = toCreateDtoV5 { dto with visibility := none }) ∧
    (∀ b : Bool, decide ((if b then "public" else "private") = "public") = b) := by
  refine ⟨fun r => ⟨rfl, rfl, rfl⟩, fun v => ⟨rfl, rfl, rfl, rfl⟩,
    fun dto => ⟨rfl, rfl, rfl, rfl⟩, fun dto => ⟨rfl, rfl, rfl⟩, fun b => ?_⟩
  cases b <;> decide

/-! ## Claim C9 -/

/-- Claim C9: every resume returned by `getResume` has `userId`,
`createdAt` and `updatedAt` equal to the empty string, whatever the
upstream v5 response contained. -/
theorem claim_C9 : ∀ v : ResumeV5,
    (normalizeResume v).userId = "" ∧ (normalizeResume v).createdAt = "" ∧
      (normalizeResume v).updatedAt = "" :=
  fun _ => ⟨rfl, rfl, rfl⟩

/-! ## Claim C6 -/

/-- Claim C6 counterexample.  The claim says removal deletes "exactly one
item matching the ID", but `removeSectionItem` filters with
`item.id !== itemId`, which deletes every match: on a section holding two
items that share the ID `"a"` (the client enforces no ID uniqueness), the
result is empty — two items were removed, not one. -/
theorem claim_C6_counterexample :
    removeItemsById
      [{ id := "a", fields := [("company", "x")] },
       { id := "a", fields := [("company", "y")] }] "a" = [] := rfl

/-- Claim C6, amended: `removeSectionItem` removes every item whose ID
equals the given one — exactly one item when at most one item bears the
ID — and keeps all other items in their original relative order (it is a
sublist, and per-item multiplicities of non-matching items are unchanged);
removing an absent ID leaves the item list unchanged and does not fail;
and the surrounding section fields are untouched. -/
theorem claim_C6_amended :
    (∀ (items : List Item) (itemId : String),
      List.Sublist (removeItemsById items itemId) items) ∧
    (∀ (items : List Item) (itemId : String) (x : Item), x.id ≠ itemId →
      (removeItemsById items itemId).count x = items.count x) ∧
    (∀ (items : List Item) (itemId : String) (x : Item),
      x ∈ removeItemsById items itemId → x ∈ items ∧ x.id ≠ itemId) ∧
    (∀ (items : List Item) (itemId : String),
      (∀ x ∈ items, x.id ≠ itemId) → removeItemsById items itemId = items) ∧
    (∀ (items : List Item) (itemId : String),
      items.countP (fun x => x.id == itemId) = 1 →
      (removeItemsById items itemId).length + 1 = items.length) ∧
    (∀ (sec : SectionVal) (itemId : String),
      (removeSectionItemUpdated sec itemId).items = removeItemsById sec.items itemId ∧
      (removeSectionItemUpdated sec itemId).name = sec.name ∧
      (removeSectionItemUpdated sec itemId).visible = sec.visible ∧
      (removeSectionItemUpdated sec itemId).id = sec.id) := by
  refine ⟨?_, ?_, ?_, ?_, ?_, fun sec itemId => ⟨rfl, rfl, rfl, rfl⟩⟩
  · intro items itemId
    exact List.filter_sublist items
  · intro items itemId x hx
    unfold removeItemsById
    induction items with
    | nil => rfl
    | cons a t ih =>
      by_cases ha : a = x
      · subst ha
        simp [List.filter_cons, List.count_cons, bne_iff_ne, hx, ih]
      · by_cases hid : a.id = itemId <;>
          simp [List.filter_cons, List.count_cons, bne_iff_ne, hid, ih, ha]
  · intro items itemId x hx
    unfold removeItemsById at hx
    rw [List.mem_filter] at hx
    exact ⟨hx.1, by simpa [bne_iff_ne] using hx.2⟩
  · intro items itemId h
    unfold removeItemsById
    rw [List.filter_eq_self]
    intro x hx
    simpa [bne_iff_ne] using h x hx
  · intro items itemId h
    have := removeItemsById_length_add_countP items itemId
    omega

/-- Claim C6 witness: a concrete instantiation of the amended theorem on a
three-item section with one matching item. -/
theorem claim_C6_amended_witness :
    ((∀ x ∈ ([{ id := "a", fields := [] }, { id := "b", fields := [] }] : List Item),
        x.id ≠ "z") →
      removeItemsById [{ id := "a", fields := [] }, { id := "b", fields := [] }] "z" =
        [{ id := "a", fields := [] }, { id := "b", fields := [] }]) ∧
    (([{ id := "a", fields := [] }, { id := "b", fields := [] }] : List Item).countP
        (fun x => x.id == "b") = 1 →
      (removeItemsById [{ id := "a", fields := [] }, { id := "b", fields := [] }] "b").length + 1 =
        ([{ id := "a", fields := [] }, { id := "b", fields := [] }] : List Item).length) ∧
    removeItemsById [{ id := "a", fields := [] }, { id := "b", fields := [] }] "z" =
      [{ id := "a", fields := [] }, { id := "b", fields := [] }] ∧
    (removeItemsById [{ id := "a", fields := [] }, { id := "b", fields := [] }] "b").length + 1 = 2 :=
  ⟨claim_C6_amended.2.2.2.1 _ "z",
   claim_C6_amended.2.2.2.2.1 _ "b",
   claim_C6_amended.2.2.2.1 _ "z" (by decide),
   claim_C6_amended.2.2.2.2.1 _ "b" (by decide)⟩

/-! ## Claim C10 -/

/-- Claim C10: the resume data `updateSection` pushes upstream (both of its
internal fetches returning the same freshly fetched data `r`, execution
being strictly sequential) agrees with `r` on basics, on metadata, on the
custom sections and on every named section other than the one being
updated; only the named section's value is replaced. -/
theorem claim_C10 (r : ResumeData) (n : SectionName) (v : SectionVal) :
    (updateSectionPushedData r r n v).basics = r.basics ∧
    (updateSectionPushedData r r n v).metadata = r.metadata ∧
    (updateSectionPushedData r r n v).sections.custom = r.sections.custom ∧
    (updateSectionPushedData r r n v).sections.get n = v ∧
    (∀ k : SectionName, k ≠ n →
      (updateSectionPushedData r r n v).sections.get k = r.sections.get k) :=
  ⟨rfl, rfl, sections_set_custom r.sections n v, sections_set_get_self r.sections n v,
   fun k hk => sections_set_get_ne r.sections n k v hk⟩

/-- Claim C10 witness: updating the summary section of the sample resume
data leaves the skills section (and basics and metadata) untouched while
the summary becomes the written value. -/
theorem claim_C10_witness :
    (updateSectionPushedData sampleResumeData sampleResumeData SectionName.summary
        sampleSectionVal2).basics = sampleResumeData.basics ∧
    (updateSectionPushedData sampleResumeData sampleResumeData SectionName.summary
        sampleSectionVal2).metadata = sampleResumeData.metadata ∧
    (updateSectionPushedData sampleResumeData sampleResumeData SectionName.summary
        sampleSectionVal2).sections.get SectionName.summary = sampleSectionVal2 ∧
    (updateSectionPushedData sampleResumeData sampleResumeData SectionName.summary
        sampleSectionVal2).sections.get SectionName.skills =
      sampleResumeData.sections.get SectionName.skills :=
  ⟨(claim_C10 sampleResumeData .summary sampleSectionVal2).1,
   (claim_C10 sampleResumeData .summary sampleSectionVal2).2.1,
   (claim_C10 sampleResumeData .summary sampleSectionVal2).2.2.2.1,
   (claim_C10 sampleResumeData .summary sampleSectionVal2).2.2.2.2 .skills (by decide)⟩

/-! ## Claim C7 -/

/-- Claim C7: invoking `create_resume` with a title and no slug derives the
slug sent to the upstream create endpoint by lower-casing the title and
replacing whitespace runs with hyphens (`deriveSlug`, the embedding of
`title.toLowerCase().replace(/\s+/g, "-")`), and the success text is the
template containing the returned resume's id, title and slug. -/
theorem claim_C7 :
    (∀ title visibility : String,
      (toCreateDtoV5 (createResumeToolDto title none visibility)).slug = deriveSlug title ∧
      (toCreateDtoV5 (createResumeToolDto title none visibility)).name = title) ∧
    deriveSlug "Software Engineer 2024" = "software-engineer-2024" ∧
    (∀ r : Resume,
      createResumeTool (.ok r) =
        ⟨"Resume created successfully!\nID: " ++ r.id ++ "\nTitle: " ++ r.title ++
          "\nSlug: " ++ r.slug, false⟩ ∧
      r.id.data <:+: (createResumeTool (.ok r)).text.data ∧
      r.title.data <:+: (createResumeTool (.ok r)).text.data ∧
      r.slug.data <:+: (createResumeTool (.ok r)).text.data) := by
  refine ⟨fun title visibility => ⟨rfl, rfl⟩, by decide, fun r => ⟨rfl, ?_, ?_, ?_⟩⟩
  · exact ⟨"Resume created successfully!\nID: ".data,
      ("\nTitle: " ++ r.title ++ "\nSlug: " ++ r.slug).data, by
        simp [createResumeTool, str_data_append]⟩
  · exact ⟨("Resume created successfully!\nID: " ++ r.id ++ "\nTitle: ").data,
      ("\nSlug: " ++ r.slug).data, by
        simp [createResumeTool, str_data_append]⟩
  · exact ⟨("Resume created successfully!\nID: " ++ r.id ++ "\nTitle: " ++ r.title ++
      "\nSlug: ").data, [], by
        simp [createResumeTool, str_data_append]⟩


theorem finishOriginal_trace (resp : HttpResponse) (st : ClientState) (tr : List HttpRequest) :
    (finishOriginal resp st tr).trace = tr := by
  unfold finishOriginal
  split
  · split
    · split <;> rfl
    · rfl
  · rfl

theorem refresh_trace (st : ClientState) (net : List FetchOutcome) (rt : String)
    (hrt : st.refreshToken = some rt) :
    (refreshAccessToken st net).trace = [refreshRequest st.baseUrl rt] := by
  unfold refreshAccessToken
  rw [hrt]
  rcases net with _ | ⟨hd, tl⟩
  · rfl
  · cases hd with
    | failure msg => rfl
    | success resp =>
      simp only []
      split
      · split
        · split <;> rfl
        · rfl
      · rfl

theorem lookupHeader_map_overwrite_self (hs : List (String × String)) (k v : String)
    (h : hs.any (fun p => p.1 = k) = true) :
    lookupHeader (hs.map (fun p => if p.1 = k then (k, v) else p)) k = some v := by
  induction hs with
  | nil => cases h
  | cons p t ih =>
    by_cases hp : p.1 = k
    · simp [lookupHeader, hp]
    · have h' : t.any (fun p => p.1 = k) = true := by
        simpa [List.any_cons, hp] using h
      simpa [lookupHeader, hp] using ih h'

theorem lookupHeader_map_overwrite_ne (hs : List (String × String)) (k v k' : String)
    (hne : k' ≠ k) :
    lookupHeader (hs.map (fun p => if p.1 = k then (k, v) else p)) k' = lookupHeader hs k' := by
  induction hs with
  | nil => rfl
  | cons p t ih =>
    by_cases hp : p.1 = k
    · simpa [lookupHeader, hp, Ne.symm hne] using ih
    · by_cases hp' : p.1 = k'
      · simp [lookupHeader, hp, hp', hne]
      · simpa [lookupHeader, hp, hp'] using ih

theorem lookupHeader_append (hs hs' : List (String × String)) (k : String) :
    lookupHeader (hs ++ hs') k =
      match lookupHeader hs k with
      | some x => some x
      | none => lookupHeader hs' k := by
  induction hs with
  | nil => rfl
  | cons p t ih =>
    by_cases hp : p.1 = k
    · simp [lookupHeader, hp]
    · simpa [lookupHeader, hp] using ih

theorem lookupHeader_none_of_any_false (hs : List (String × String)) (k : String)
    (h : hs.any (fun p => p.1 = k) = false) :
    lookupHeader hs k = none := by
  induction hs with
  | nil => rfl
  | cons p t ih =>
    have hp : ¬(p.1 = k) := by
      intro hc
      simp [List.any_cons, hc] at h
    have h' : t.any (fun p => p.1 = k) = false := by
      simpa [List.any_cons, hp] using h
    simpa [lookupHeader, hp] using ih h'

theorem lookupHeader_setHeader_self (hs : List (String × String)) (k v : String) :
    lookupHeader (setHeader hs k v) k = some v := by
  unfold setHeader
  split
  · rename_i h
    exact lookupHeader_map_overwrite_self hs k v h
  · rename_i h
    have hfalse : hs.any (fun p => p.1 = k) = false := by
      cases hb : hs.any (fun p => p.1 = k)
      · rfl
      · exact absurd hb h
    rw [lookupHeader_append]
    rw [lookupHeader_none_of_any_false hs k hfalse]
    simp [lookupHeader]

theorem lookupHeader_setHeader_ne (hs : List (String × String)) (k v k' : String)
    (hne : k' ≠ k) : lookupHeader (setHeader hs k v) k' = lookupHeader hs k' := by
  unfold setHeader
  split
  · exact lookupHeader_map_overwrite_ne hs k v k' hne
  · rw [lookupHeader_append]
    rcases hlk : lookupHeader hs k' with _ | x
    · simp [lookupHeader, Ne.symm hne]
    · rfl

theorem lookupHeader_mergeHeaders_all_ne (base extra : List (String × String)) (k : String)
    (h : extra.all (fun p => p.1 ≠ k) = true) :
    lookupHeader (mergeHeaders base extra) k = lookupHeader base k := by
  induction extra generalizing base with
  | nil => rfl
  | cons p t ih =>
    rw [List.all_cons] at h
    have hp : p.1 ≠ k := by simpa using (Bool.and_eq_true_iff.mp h).1
    have ht := (Bool.and_eq_true_iff.mp h).2
    show lookupHeader (mergeHeaders (setHeader base p.1 p.2) t) k = lookupHeader base k
    rw [ih (setHeader base p.1 p.2) ht]
    exact lookupHeader_setHeader_ne base p.1 p.2 k (Ne.symm hp)


theorem buildHeaders_apiKey (st : ClientState) (k : String)
    (optHeaders : List (String × String)) (hkey : st.apiKey = some k)
    (hauth : optHeaders.all (fun p => p.1 ≠ "Authorization") = true) :
    lookupHeader (buildHeaders st optHeaders) "x-api-key" = some k ∧
    lookupHeader (buildHeaders st optHeaders) "Authorization" = none := by
  unfold buildHeaders
  rw [hkey]
  simp only []
  have h0 : lookupHeader (mergeHeaders [("Content-Type", "application/json")] optHeaders)
      "Authorization" = none := by
    rw [lookupHeader_mergeHeaders_all_ne _ _ _ hauth]
    rfl
  constructor
  · split
    · rw [lookupHeader_setHeader_ne _ _ _ _ (by decide)]
      exact lookupHeader_setHeader_self _ _ _
    · exact lookupHeader_setHeader_self _ _ _
  · split
    · rw [lookupHeader_setHeader_ne _ _ _ _ (by decide),
        lookupHeader_setHeader_ne _ _ _ _ (by decide)]
      exact h0
    · rw [lookupHeader_setHeader_ne _ _ _ _ (by decide)]
      exact h0

theorem request_trace_apiKey (st : ClientState) (k e : String) (opts : RequestOptions)
    (net : List FetchOutcome) (hkey : st.apiKey = some k) :
    (request st e opts net).trace =
      [⟨st.baseUrl ++ e, opts.method, buildHeaders st opts.headers, opts.body⟩] := by
  unfold request
  rcases net with _ | ⟨hd, tl⟩
  · rfl
  · cases hd with
    | failure msg => rfl
    | success resp =>
      simp only []
      rw [if_neg (by rintro ⟨-, -, hnone⟩; rw [hkey] at hnone; cases hnone)]
      exact finishOriginal_trace _ _ _

theorem request_401_trace (st : ClientState) (e : String) (opts : RequestOptions)
    (resp1 : HttpResponse) (rest : List FetchOutcome) (rt : String)
    (hkey : st.apiKey = none) (hrt : st.refreshToken = some rt)
    (h401 : resp1.status = 401) :
    (request st e opts (.success resp1 :: rest)).trace =
      ⟨st.baseUrl ++ e, opts.method, buildHeaders st opts.headers, opts.body⟩ ::
        refreshRequest st.baseUrl rt ::
        (if (refreshAccessToken st rest).refreshed then
          [⟨st.baseUrl ++ e, opts.method,
            setHeader (buildHeaders st opts.headers) "Authorization"
              ("Bearer " ++ optToString ((refreshAccessToken st rest).state.accessToken)),
            opts.body⟩]
         else []) := by
  have hcond : resp1.status = 401 ∧ st.refreshToken.isSome ∧ st.apiKey = none :=
    ⟨h401, by rw [hrt]; rfl, hkey⟩
  have htr := refresh_trace st rest rt hrt
  unfold request
  simp only []
  rw [if_pos hcond]
  cases hrf : (refreshAccessToken st rest).refreshed
  · rw [if_neg (show ¬(false = true) by decide), if_neg (show ¬(false = true) by decide)]
    rw [finishOriginal_trace, htr]
    rfl
  · rw [if_pos rfl, if_pos rfl]
    rcases hnet : (refreshAccessToken st rest).net with _ | ⟨hd2, tl2⟩
    · simp only []
      rw [htr]
      rfl
    · cases hd2 with
      | failure msg =>
        simp only []
        rw [htr]
        rfl
      | success retry =>
        simp only []
        split <;> (rw [htr]; rfl)

theorem request_401_result_fail (st : ClientState) (e : String) (opts : RequestOptions)
    (resp1 : HttpResponse) (rest : List FetchOutcome) (rt : String)
    (hkey : st.apiKey = none) (hrt : st.refreshToken = some rt)
    (h401 : resp1.status = 401)
    (hfail : (refreshAccessToken st rest).refreshed = false) :
    (request st e opts (.success resp1 :: rest)).result =
      .error (.api 401 resp1.statusText resp1.body) := by
  have hcond : resp1.status = 401 ∧ st.refreshToken.isSome ∧ st.apiKey = none :=
    ⟨h401, by rw [hrt]; rfl, hkey⟩
  unfold request
  simp only []
  rw [if_pos hcond, if_neg (by rw [hfail]; exact Bool.false_ne_true)]
  unfold finishOriginal
  have hnok : resp1.ok = false := by
    unfold HttpResponse.ok
    rw [h401]
    rfl
  rw [hnok]
  simp [h401]

theorem request_ok_result (st : ClientState) (e : String) (opts : RequestOptions)
    (resp : HttpResponse) (rest : List FetchOutcome) (hok : resp.ok = true) :
    (request st e opts (.success resp :: rest)).result =
      .ok (match resp.contentType with
        | some ct =>
          if strIncludes ct "application/json" then Payload.json resp.body
          else Payload.text resp.body
        | none => Payload.text resp.body) := by
  have hne : ¬(resp.status = 401 ∧ st.refreshToken.isSome ∧ st.apiKey = none) := by
    rintro ⟨h401, -, -⟩
    have hok' : (200 ≤ resp.status && resp.status < 300) = true := hok
    rw [h401] at hok'
    exact absurd hok' (by decide)
  unfold request
  simp only []
  rw [if_neg hne]
  unfold finishOriginal
  rw [if_pos hok]
  rcases hct : resp.contentType with _ | ct
  · rfl
  · simp only []
    split <;> rfl

theorem request_retry_json (st : ClientState) (e : String) (opts : RequestOptions)
    (resp1 r3 : HttpResponse) (rest rest2 : List FetchOutcome)
    (hkey : st.apiKey = none) (hsome : st.refreshToken.isSome = true)
    (h401 : resp1.status = 401)
    (href : (refreshAccessToken st rest).refreshed = true)
    (hnet : (refreshAccessToken st rest).net = .success r3 :: rest2)
    (hok : r3.ok = true) :
    (request st e opts (.success resp1 :: rest)).result = .ok (.json r3.body) := by
  unfold request
  simp only []
  rw [if_pos ⟨h401, hsome, hkey⟩, if_pos href, hnet]
  simp only []
  rw [if_pos hok]

theorem request_trace_cases (st : ClientState) (e : String) (opts : RequestOptions)
    (net : List FetchOutcome) :
    (request st e opts net).trace.map (fun r => r.method) = [opts.method] ∨
    (st.apiKey = none ∧
      ((request st e opts net).trace.map (fun r => r.method) = [opts.method, "POST"] ∨
       (request st e opts net).trace.map (fun r => r.method) = [opts.method, "POST", opts.method])) := by
  unfold request
  rcases net with _ | ⟨hd, tl⟩
  · left; rfl
  · cases hd with
    | failure msg => left; rfl
    | success resp =>
      simp only []
      by_cases hcond : resp.status = 401 ∧ st.refreshToken.isSome ∧ st.apiKey = none
      · rw [if_pos hcond]
        obtain ⟨h401, hsome, hnone⟩ := hcond
        obtain ⟨rt, hrt⟩ := Option.isSome_iff_exists.mp hsome
        have htr := refresh_trace st tl rt hrt
        right
        refine ⟨hnone, ?_⟩
        cases hrf : (refreshAccessToken st tl).refreshed
        · rw [if_neg (show ¬(false = true) by decide)]
          left
          rw [finishOriginal_trace, htr]
          rfl
        · rw [if_pos rfl]
          right
          rcases hnet : (refreshAccessToken st tl).net with _ | ⟨hd2, tl2⟩
          · simp only []
            rw [htr]
            rfl
          · cases hd2 with
            | failure msg =>
              simp only []
              rw [htr]
              rfl
            | success retry =>
              simp only []
              split <;> (rw [htr]; rfl)
      · rw [if_neg hcond]
        left
        rw [finishOriginal_trace]
        rfl


theorem deleteTool_trace (st : ClientState) (id : String) (net : List FetchOutcome) :
    (deleteResumeTool st id true net).2.2 =
      (request st ("/api/openapi/resume/" ++ id) { method := "DELETE" } net).trace := by
  unfold deleteResumeTool deleteResumeClient
  simp only []
  rcases hres : (request st ("/api/openapi/resume/" ++ id) { method := "DELETE" } net).result
    with e | p <;> rfl

/-- Claim C2: when no API key is set, a refresh token is held and the
response to a request is a 401, the client performs exactly one silent
refresh — the request right after the original one is the POST to
`/api/auth/refresh` carrying the refresh token as the `Refresh` cookie.
If the refresh fails, no retry happens (exactly two requests were issued)
and the original 401 error surfaces unchanged; if it succeeds, the
original request is retried exactly once (exactly three requests in
total), the retry carrying the refreshed bearer token in its
`Authorization` header. -/
theorem claim_C2 (st : ClientState) (endpoint : String) (opts : RequestOptions)
    (resp1 : HttpResponse) (rest : List FetchOutcome) (rt : String)
    (hkey : st.apiKey = none) (hrt : st.refreshToken = some rt)
    (h401 : resp1.status = 401) :
    (request st endpoint opts (.success resp1 :: rest)).trace.get? 1 =
        some (refreshRequest st.baseUrl rt) ∧
    lookupHeader (refreshRequest st.baseUrl rt).headers "Cookie" =
        some ("Refresh=" ++ rt) ∧
    ((refreshAccessToken st rest).refreshed = false →
      (request st endpoint opts (.success resp1 :: rest)).trace.length = 2 ∧
      (request st endpoint opts (.success resp1 :: rest)).result =
        Except.error (ReqError.api 401 resp1.statusText resp1.body)) ∧
    ((refreshAccessToken st rest).refreshed = true →
      (request st endpoint opts (.success resp1 :: rest)).trace.length = 3 ∧
      (request st endpoint opts (.success resp1 :: rest)).trace.get? 2 =
        some ⟨st.baseUrl ++ endpoint, opts.method,
          setHeader (buildHeaders st opts.headers) "Authorization"
            ("Bearer " ++ optToString ((refreshAccessToken st rest).state.accessToken)),
          opts.body⟩ ∧
      lookupHeader
          (setHeader (buildHeaders st opts.headers) "Authorization"
            ("Bearer " ++ optToString ((refreshAccessToken st rest).state.accessToken)))
          "Authorization" =
        some ("Bearer " ++ optToString ((refreshAccessToken st rest).state.accessToken))) := by
  have htr := request_401_trace st endpoint opts resp1 rest rt hkey hrt h401
  refine ⟨?_, rfl, fun hf => ⟨?_, ?_⟩, fun ht => ⟨?_, ?_, ?_⟩⟩
  · rw [htr]
    rfl
  · rw [htr, hf]
    rfl
  · exact request_401_result_fail st endpoint opts resp1 rest rt hkey hrt h401 hf
  · rw [htr, ht]
    rfl
  · rw [htr, ht]
    rfl
  · exact lookupHeader_setHeader_self _ _ _

/-- Claim C2 witness: on a concrete token-auth state and a scripted
401-refresh-success-retry exchange, the second request is the refresh and
exactly three requests are issued. -/
theorem claim_C2_witness :
    (request tokenState "/e" {} [.success resp401, .success refreshOk, .success okJson]).trace.get? 1 =
      some (refreshRequest tokenState.baseUrl "refresh1") ∧
    (request tokenState "/e" {} [.success resp401, .success refreshOk, .success okJson]).trace.length = 3 :=
  ⟨(claim_C2 tokenState "/e" {} resp401 [.success refreshOk, .success okJson] "refresh1"
      rfl rfl rfl).1,
   ((claim_C2 tokenState "/e" {} resp401 [.success refreshOk, .success okJson] "refresh1"
      rfl rfl rfl).2.2.2 (by decide)).1⟩

/-- Claim C3: once an API key is set, every request the client issues (the
trace is a single request, whatever the network does — the 401 refresh
path requires the key to be absent) carries the `x-api-key` header with
the key and no `Authorization` header, even if an access token is also
held; the caller-supplied headers of every client method never include an
`Authorization` entry, which the hypothesis records. -/
theorem claim_C3 (st : ClientState) (k endpoint : String) (opts : RequestOptions)
    (net : List FetchOutcome) (hkey : st.apiKey = some k)
    (hauth : opts.headers.all (fun p => p.1 ≠ "Authorization") = true) :
    (request st endpoint opts net).trace.length = 1 ∧
    ∀ r ∈ (request st endpoint opts net).trace,
      lookupHeader r.headers "x-api-key" = some k ∧
      lookupHeader r.headers "Authorization" = none := by
  have htr := request_trace_apiKey st k endpoint opts net hkey
  have hb := buildHeaders_apiKey st k opts.headers hkey hauth
  rw [htr]
  refine ⟨rfl, ?_⟩
  intro r hr
  rw [List.mem_singleton] at hr
  subst hr
  exact hb

/-- Claim C3 witness: a concrete client state holding both an API key and
legacy tokens issues a single request with the key header and no bearer
header. -/
theorem claim_C3_witness :
    keyState.apiKey = some "key123" ∧
    (({} : RequestOptions).headers.all (fun p => p.1 ≠ "Authorization") = true) ∧
    (request keyState "/api/openapi/resume/list" {} [.success okJson]).trace.length = 1 ∧
    ∀ r ∈ (request keyState "/api/openapi/resume/list" {} [.success okJson]).trace,
      lookupHeader r.headers "x-api-key" = some "key123" ∧
      lookupHeader r.headers "Authorization" = none :=
  ⟨rfl, by decide,
   (claim_C3 keyState "key123" "/api/openapi/resume/list" {} [.success okJson] rfl (by decide)).1,
   (claim_C3 keyState "key123" "/api/openapi/resume/list" {} [.success okJson] rfl (by decide)).2⟩

/-- Claim C8 counterexample.  The claim says every code path — including
the post-refresh retry — negotiates on the content type.  In fact the
retry path returns `retryResponse.json()` unconditionally: on a scripted
401, successful refresh, and a 200 retry response with content type
`text/plain` and body `"hello"`, the client returns the body as parsed
JSON rather than raw text. -/
theorem claim_C8_counterexample :
    (request tokenState "/e" {}
        [.success resp401, .success refreshOk, .success okTextPlain]).result =
      Except.ok (Payload.json "hello") ∧
    (request tokenState "/e" {}
        [.success resp401, .success refreshOk, .success okTextPlain]).result ≠
      Except.ok (Payload.text "hello") := by
  constructor
  · rfl
  · have h1 : (request tokenState "/e" {}
        [.success resp401, .success refreshOk, .success okTextPlain]).result =
        Except.ok (Payload.json "hello") := rfl
    rw [h1]
    simp

/-- Claim C8, amended: on the main path every response the client accepts
as successful is parsed as JSON exactly when its content type includes
`application/json` and returned as raw text otherwise; on the
post-refresh retry path, the retry body is always parsed as JSON,
regardless of the retry response's content type. -/
theorem claim_C8_amended :
    (∀ (st : ClientState) (e : String) (opts : RequestOptions) (resp : HttpResponse)
        (rest : List FetchOutcome), resp.ok = true →
      (request st e opts (.success resp :: rest)).result =
        .ok (match resp.contentType with
          | some ct =>
            if strIncludes ct "application/json" then Payload.json resp.body
            else Payload.text resp.body
          | none => Payload.text resp.body)) ∧
    (∀ (st : ClientState) (e : String) (opts : RequestOptions) (resp1 r3 : HttpResponse)
        (rest rest2 : List FetchOutcome),
      st.apiKey = none → st.refreshToken.isSome = true → resp1.status = 401 →
      (refreshAccessToken st rest).refreshed = true →
      (refreshAccessToken st rest).net = .success r3 :: rest2 →
      r3.ok = true →
      (request st e opts (.success resp1 :: rest)).result = .ok (.json r3.body)) :=
  ⟨fun st e opts resp rest hok => request_ok_result st e opts resp rest hok,
   fun st e opts resp1 r3 rest rest2 hkey hsome h401 href hnet hok =>
     request_retry_json st e opts resp1 r3 rest rest2 hkey hsome h401 href hnet hok⟩

/-- Claim C8 witness: concrete exchanges for the three cases — a text
response returned raw, a JSON response parsed, and a retry always
parsed. -/
theorem claim_C8_amended_witness :
    (request keyState "/e" {} [.success okTextPlain]).result =
      Except.ok (Payload.text "hello") ∧
    (request keyState "/e" {} [.success okJson]).result =
      Except.ok (Payload.json "[1]") ∧
    (request tokenState "/e" {}
        [.success resp401, .success refreshOk, .success okTextPlain]).result =
      Except.ok (Payload.json "hello") :=
  ⟨claim_C8_amended.1 keyState "/e" {} okTextPlain [] (by decide),
   claim_C8_amended.1 keyState "/e" {} okJson [] (by decide),
   claim_C8_amended.2 tokenState "/e" {} resp401 okTextPlain
     [.success refreshOk, .success okTextPlain] [] rfl rfl rfl (by decide) (by decide) (by decide)⟩

/-- Claim C5 counterexample.  The claim says a confirmed `delete_resume`
issues exactly one HTTP delete call.  Under legacy bearer-token auth, a
401 answer followed by a successful refresh makes the client re-issue the
DELETE once more: on this concrete state and script the tool issues two
HTTP requests with method DELETE. -/
theorem claim_C5_counterexample :
    ((deleteResumeTool tokenState "r9" true
        [.success resp401, .success refreshOk, .success okJson]).2.2.map
      (fun r => r.method)).count "DELETE" = 2 := by
  decide

/-- Claim C5, amended: `delete_resume` without `confirm = true` performs no
HTTP call, reports cancellation and leaves the client state unchanged;
with `confirm = true` it issues the delete request exactly once — except
that under legacy bearer-token auth the request layer's single
401-triggered refresh-and-retry may re-issue the delete exactly once
more (never when an API key is set, and never more than twice). -/
theorem claim_C5_amended :
    (∀ (st : ClientState) (id : String) (net : List FetchOutcome),
      deleteResumeTool st id false net =
        (⟨"Deletion cancelled. Set confirm to true to delete.", false⟩, st, [])) ∧
    (∀ (st : ClientState) (id : String) (net : List FetchOutcome) (k : String),
      st.apiKey = some k →
      (deleteResumeTool st id true net).2.2.map (fun r => r.method) = ["DELETE"]) ∧
    (∀ (st : ClientState) (id : String) (net : List FetchOutcome),
      ((deleteResumeTool st id true net).2.2.map (fun r => r.method)).count "DELETE" = 1 ∨
      (st.apiKey = none ∧
        ((deleteResumeTool st id true net).2.2.map (fun r => r.method)).count "DELETE" = 2)) := by
  refine ⟨fun st id net => rfl, ?_, ?_⟩
  · intro st id net k hkey
    rw [deleteTool_trace, request_trace_apiKey st k _ _ net hkey]
    rfl
  · intro st id net
    rw [deleteTool_trace]
    rcases request_trace_cases st ("/api/openapi/resume/" ++ id) { method := "DELETE" } net
      with hm | ⟨hnone, hm | hm⟩
    · left
      rw [hm]
      decide
    · left
      rw [hm]
      decide
    · right
      exact ⟨hnone, by rw [hm]; decide⟩

/-- Claim C5 witness: unconfirmed deletion on a concrete state is a no-op
with the cancellation message, and a confirmed deletion under an API key
issues exactly one DELETE. -/
theorem claim_C5_amended_witness :
    deleteResumeTool keyState "r9" false [] =
      (⟨"Deletion cancelled. Set confirm to true to delete.", false⟩, keyState, []) ∧
    keyState.apiKey = some "key123" ∧
    (deleteResumeTool keyState "r9" true [.success okJson]).2.2.map (fun r => r.method) =
      ["DELETE"] :=
  ⟨claim_C5_amended.1 keyState "r9" [], rfl,
   claim_C5_amended.2.1 keyState "r9" [.success okJson] "key123" rfl⟩

/-! ## Claim C4 -/

/-- Claim C4: every registered tool handler returns a textual response and
never lets a failure escape: for each of the twenty tools of the registry,
every client-side, parse or network failure raised during the invocation is
turned into an error-flagged response whose text is the declared prefix
followed by the failure message, and successful invocations are not
error-flagged.  (Nonempty-string arguments are quantified as an explicit
head character and tail to capture JavaScript truthiness without side
conditions.) -/
theorem claim_C4 :
    -- authenticate: API key wins; login failures and missing credentials are flagged
    (∀ (c : Char) (cs : List Char) (ident pw : Option String)
        (login : Except String LoginResponse),
      authenticateTool (some (String.mk (c :: cs))) ident pw login =
        ⟨"Successfully authenticated with API key", false⟩) ∧
    (∀ (c d : Char) (cs ds : List Char) (m : String),
      authenticateTool none (some (String.mk (c :: cs))) (some (String.mk (d :: ds)))
          (.error m) =
        ⟨"Authentication failed: " ++ m, true⟩) ∧
    (∀ (c d : Char) (cs ds : List Char) (r : LoginResponse),
      (authenticateTool none (some (String.mk (c :: cs))) (some (String.mk (d :: ds)))
          (.ok r)).isError = false) ∧
    (∀ login : Except String LoginResponse,
      authenticateTool none none none login =
        ⟨"Please provide either an api_key or both identifier and password", true⟩) ∧
    -- set_base_url: always a plain text success
    (∀ url : String, setBaseUrlTool url = ⟨"Base URL changed to: " ++ url, false⟩) ∧
    -- check_connection
    (∀ m : String, checkConnectionTool (.error m) = ⟨"Connection failed: " ++ m, true⟩) ∧
    (∀ s : String, (checkConnectionTool (.ok s)).isError = false) ∧
    -- get_current_user
    (∀ m : String, getCurrentUserTool (.error m) = ⟨"Failed to get user: " ++ m, true⟩) ∧
    (∀ u : User, (getCurrentUserTool (.ok u)).isError = false) ∧
    -- list_resumes
    (∀ m : String, listResumesTool (.error m) = ⟨"Failed to list resumes: " ++ m, true⟩) ∧
    (∀ rs : List ResumeListItem, (listResumesTool (.ok rs)).isError = false) ∧
    -- get_resume
    (∀ m : String, getResumeTool (.error m) = ⟨"Failed to get resume: " ++ m, true⟩) ∧
    (∀ r : Resume, (getResumeTool (.ok r)).isError = false) ∧
    -- get_resume_section
    (∀ (choice : SectionChoice) (m : String),
      getResumeSectionTool choice (.error m) = ⟨"Failed to get section: " ++ m, true⟩) ∧
    (∀ (choice : SectionChoice) (r : Resume),
      (getResumeSectionTool choice (.ok r)).isError = false) ∧
    -- create_resume
    (∀ m : String, createResumeTool (.error m) = ⟨"Failed to create resume: " ++ m, true⟩) ∧
    (∀ r : Resume, (createResumeTool (.ok r)).isError = false) ∧
    -- update_resume_basics
    (∀ (l : String) (uh : Option String) (upd : Except String Resume) (m : String),
      updateResumeBasicsTool (some l) uh (.error m) upd =
        ⟨"Failed to update basics: " ++ m, true⟩) ∧
    (∀ (f : Except String Resume) (m : String),
      updateResumeBasicsTool none none f (.error m) =
        ⟨"Failed to update basics: " ++ m, true⟩) ∧
    (∀ (ul uh : Option String) (r1 : Resume) (m : String),
      updateResumeBasicsTool ul uh (.ok r1) (.error m) =
        ⟨"Failed to update basics: " ++ m, true⟩) ∧
    (∀ (ul uh : Option String) (r1 r2 : Resume),
      (updateResumeBasicsTool ul uh (.ok r1) (.ok r2)).isError = false) ∧
    -- update_summary
    (∀ (m : String) (upd : Except String Resume),
      updateSummaryTool (.error m) upd = ⟨"Failed to update summary: " ++ m, true⟩) ∧
    (∀ (r : Resume) (m : String),
      updateSummaryTool (.ok r) (.error m) = ⟨"Failed to update summary: " ++ m, true⟩) ∧
    (∀ r1 r2 : Resume, (updateSummaryTool (.ok r1) (.ok r2)).isError = false) ∧
    -- add_experience
    (∀ (company position m : String),
      addExperienceTool company position (.error m) =
        ⟨"Failed to add experience: " ++ m, true⟩) ∧
    (∀ (company position : String) (r : Resume),
      addExperienceTool company position (.ok r) =
        ⟨"Experience added: " ++ position ++ " at " ++ company, false⟩) ∧
    -- add_education
    (∀ (institution studyType area m : String),
      addEducationTool institution studyType area (.error m) =
        ⟨"Failed to add education: " ++ m, true⟩) ∧
    (∀ (institution studyType area : String) (r : Resume),
      (addEducationTool institution studyType area (.ok r)).isError = false) ∧
    -- add_skill
    (∀ (name m : String),
      addSkillTool name (.error m) = ⟨"Failed to add skill: " ++ m, true⟩) ∧
    (∀ (name : String) (r : Resume),
      addSkillTool name (.ok r) = ⟨"Skill added: " ++ name, false⟩) ∧
    -- add_project
    (∀ (name m : String),
      addProjectTool name (.error m) = ⟨"Failed to add project: " ++ m, true⟩) ∧
    (∀ (name : String) (r : Resume), (addProjectTool name (.ok r)).isError = false) ∧
    -- update_section_item: a JSON.parse failure is caught like any client failure
    (∀ (n : SectionName) (itemId m : String) (upd : Except String Resume),
      updateSectionItemTool n itemId (.error m) upd =
        ⟨"Failed to update item: " ++ m, true⟩) ∧
    (∀ (n : SectionName) (itemId m : String),
      updateSectionItemTool n itemId (.ok ()) (.error m) =
        ⟨"Failed to update item: " ++ m, true⟩) ∧
    (∀ (n : SectionName) (itemId : String) (r : Resume),
      (updateSectionItemTool n itemId (.ok ()) (.ok r)).isError = false) ∧
    -- remove_section_item
    (∀ (n : SectionName) (m : String),
      removeSectionItemTool n (.error m) = ⟨"Failed to remove item: " ++ m, true⟩) ∧
    (∀ (n : SectionName) (r : Resume),
      removeSectionItemTool n (.ok r) = ⟨"Item removed from " ++ n.str ++ ".", false⟩) ∧
    -- toggle_section_visibility
    (∀ (n : SectionName) (visible : Bool) (m : String) (upd : Except String Resume),
      toggleSectionVisibilityTool n visible (.error m) upd =
        ⟨"Failed to toggle visibility: " ++ m, true⟩) ∧
    (∀ (n : SectionName) (visible : Bool) (r : Resume) (m : String),
      toggleSectionVisibilityTool n visible (.ok r) (.error m) =
        ⟨"Failed to toggle visibility: " ++ m, true⟩) ∧
    (∀ (n : SectionName) (visible : Bool) (r1 r2 : Resume),
      (toggleSectionVisibilityTool n visible (.ok r1) (.ok r2)).isError = false) ∧
    -- delete_resume: cancellation without confirm, flagged failure otherwise
    (∀ (st : ClientState) (id : String) (net : List FetchOutcome),
      (deleteResumeTool st id false net).1 =
        ⟨"Deletion cancelled. Set confirm to true to delete.", false⟩) ∧
    (∀ (st : ClientState) (id : String) (net : List FetchOutcome),
      (deleteResumeTool st id true net).1 =
        match (deleteResumeClient st id net).result with
        | .ok _ => ⟨"Resume deleted successfully.", false⟩
        | .error e => ⟨"Failed to delete resume: " ++ e.message, true⟩) ∧
    -- export_resume_json
    (∀ m : String, exportResumeJsonTool (.error m) = ⟨"Failed to export: " ++ m, true⟩) ∧
    (∀ r : Resume, (exportResumeJsonTool (.ok r)).isError = false) ∧
    -- update_resume_visibility
    (∀ (visibility m : String),
      updateResumeVisibilityTool visibility (.error m) =
        ⟨"Failed to update visibility: " ++ m, true⟩) ∧
    (∀ (visibility : String) (r : Resume),
      updateResumeVisibilityTool visibility (.ok r) =
        ⟨"Resume visibility set to " ++ visibility ++ ".", false⟩) := by
  refine ⟨fun c cs ident pw login => rfl, fun c d cs ds m => rfl, fun c d cs ds r => rfl,
    fun login => rfl, fun url => rfl, fun m => rfl, fun s => rfl, fun m => rfl, fun u => rfl,
    fun m => rfl, ?_, fun m => rfl, fun r => rfl, ?_, ?_, fun m => rfl, fun r => rfl,
    fun l uh upd m => rfl, fun f m => rfl, ?_, ?_, fun m upd => rfl, fun r m => rfl,
    fun r1 r2 => rfl, fun company position m => rfl, fun company position r => rfl,
    fun institution studyType area m => rfl, fun institution studyType area r => rfl,
    fun name m => rfl, fun name r => rfl, fun name m => rfl, fun name r => rfl,
    fun n itemId m upd => rfl, fun n itemId m => rfl, fun n itemId r => rfl,
    fun n m => rfl, fun n r => rfl, fun n visible m upd => rfl, fun n visible r m => rfl,
    fun n visible r1 r2 => rfl, fun st id net => rfl, ?_, fun m => rfl, fun r => rfl,
    fun visibility m => rfl, fun visibility r => rfl⟩
  · intro rs
    cases rs <;> rfl
  · intro choice m
    cases choice <;> rfl
  · intro choice r
    cases choice <;> rfl
  · intro ul uh r1 m
    cases ul <;> cases uh <;> rfl
  · intro ul uh r1 r2
    cases ul <;> cases uh <;> rfl
  · intro st id net
    unfold deleteResumeTool
    simp only []
    rcases (deleteResumeClient st id net).result with e | p <;> rfl

end RxResume
